import Mathlib

/-!
Shallow embedding of src/sentry/db/models/fields/node.py: the lazy
document proxy (NodeData) and the pointer field codec (NodeField), with
the external node store and the compress/pickle transforms modelled at
their interface as the spec prescribes.

Modelling conventions, each justified against the Python source:
* Document bodies are association lists of string keys and simple
  values; Python dict semantics (unique keys, lookup, pop, item
  assignment) are given by dlookup / derase / dinsert, where derase
  removes every entry with the key so that a lookup after a pop is
  absent, exactly as for a Python dict.
* The CanonicalKeyDict wrapper lives outside this repository.
  Modelled from the spec: the canonicalization wrapper is a pluggable,
  items-preserving transform, so a body is a Body carrying its entries
  plus a canonical flag; applying the wrapper sets the flag, and
  flattening with dict(data.items()) reads back the entries.
* compress/pickle live outside this repository.  Modelled from the
  spec: they are black-box reversible transforms, so an encoded string
  is either a faithfully decodable payload (EncStr.good) or bytes whose
  reversal fails (EncStr.bad); decodeBytes is the reversal and catches
  every failure as none, matching the except-clause in to_python.
* The node store lives outside this repository.  Modelled from the
  spec: create / get / set / delete over an association list of
  pointers (positive naturals, so that a created id is always truthy in
  the Python sense); set prepends, get reads the first match, delete
  filters, which reproduces overwrite semantics observationally.
* Python raising is modelled with Except; the two exception classes of
  the source are DErr.unpopulated and DErr.integrity.  A KeyError from
  reading an absent key is modelled by getitem returning none.
* Python aliasing in the data property matters: branches that return
  the stored _node_data return the very object, so an item assignment
  through them mutates the proxy, while the branch that returns a fresh
  empty dict discards the mutation.  dataGet therefore reports a third
  component, true exactly when the returned body is the stored one.
-/

/-- Document values: strings and naturals, enough to populate bodies,
reference tokens and reference versions. -/
inductive Val where
  | vStr (s : String)
  | vNat (n : Nat)
deriving DecidableEq, Repr

/-- A document body as stored in a Python dict: an association list. -/
abbrev Dict := List (String × Val)

/-- Python d[k] as an Option: the first entry with key k. -/
def dlookup (k : String) : Dict → Option Val
  | [] => none
  | (k1, v) :: t => if k1 = k then some v else dlookup k t

/-- Python d.pop(k): remove every entry with key k. -/
def derase (k : String) : Dict → Dict
  | [] => []
  | (k1, v) :: t => if k1 = k then derase k t else (k1, v) :: derase k t

/-- Python d[k] = v: replace in place when the key is present, append
otherwise. -/
def dinsert (k : String) (v : Val) (d : Dict) : Dict :=
  if (dlookup k d).isSome then
    d.map (fun p => if p.1 = k then (k, v) else p)
  else
    d ++ [(k, v)]

/-- Materialized document body: the entries plus whether the value is
wrapped in the canonicalization wrapper (a CANONICAL_TYPES instance). -/
structure Body where
  entries : Dict
  canonical : Bool
deriving DecidableEq, Repr

/-- Truthiness of a node id in Python: None and 0 are falsy. -/
def idTruthy : Option Nat → Bool
  | none => false
  | some n => n != 0

/-- The node store state: pointers to stored bodies. -/
abbrev Store := List (Nat × Dict)

/-- nodestore.get: the stored body for a pointer, if any. -/
def Store.get : Store → Nat → Option Dict
  | [], _ => none
  | (m, d) :: t, n => if m = n then some d else Store.get t n

/-- nodestore.set: overwrite the body at a pointer (prepend; get reads
the first match, so the old entry is shadowed). -/
def storeSet (s : Store) (n : Nat) (d : Dict) : Store :=
  (n, d) :: s

/-- nodestore.delete: remove the pointer. -/
def storeDel (s : Store) (n : Nat) : Store :=
  s.filter (fun p => p.1 != n)

/-- A pointer id not yet present in the store, as allocated by
nodestore.create; always positive, hence truthy. -/
def freshId (s : Store) : Nat :=
  (s.map Prod.fst).foldr Nat.max 0 + 1

/-- Configuration of a NodeField: the kwargs ref_version, wrapper
(whether a canonicalization wrapper is configured) and null
(Django allow-null). -/
structure NodeField where
  ref_version : Option Val
  wrapper : Bool
  null : Bool

/-- The lazy proxy NodeData: pointer id, recorded ref and ref_version,
and the optional materialized body _node_data. -/
structure NodeData where
  id : Option Nat
  ref : Option Val
  ref_version : Option Val
  _node_data : Option Body
deriving DecidableEq, Repr

/-- The two exception classes of the source. -/
inductive DErr where
  | unpopulated
  | integrity
deriving DecidableEq, Repr

/-- Result of NodeData.bind_data: whether NodeIntegrityFailure was
raised, the proxy state afterwards (the source assigns ref and
ref_version before it can raise), and the argument dict after the two
destructive pops. -/
structure BindOut where
  raised : Bool
  nd : NodeData
  leftover : Dict
deriving DecidableEq, Repr

/-- Python data.pop(k, ref) restricted to the _ref key: the stored
value when present, the default otherwise. -/
def popRef (data : Dict) (ref : Option Val) : Option Val :=
  match dlookup "_ref" data with
  | some v => some v
  | none => ref

/-- NodeData.bind_data(data, ref): pop _ref (defaulting to ref) and
_ref_version (defaulting to None), raise NodeIntegrityFailure when the
popped version equals the field epoch, ref is non-None and the popped
ref differs from ref; otherwise wrap if configured and store the body. -/
def bind_data (f : NodeField) (nd : NodeData) (data : Dict) (ref : Option Val) : BindOut :=
  let r : Option Val := popRef data ref
  let d1 := derase "_ref" data
  let rv := dlookup "_ref_version" d1
  let d2 := derase "_ref_version" d1
  let nd1 : NodeData := { nd with ref := r, ref_version := rv }
  if rv = f.ref_version ∧ ref.isSome = true ∧ r ≠ ref then
    ⟨true, nd1, d2⟩
  else
    ⟨false, { nd1 with _node_data := some ⟨d2, f.wrapper⟩ }, d2⟩

/-- The NodeData.data property.  Returns the body, the proxy state
afterwards, and whether the returned body is the stored _node_data
object (Python aliasing: mutations through it reach the proxy).  The
branch with a stored body returns it unchanged; the branch with a
truthy id raises NodeUnpopulated under settings.DEBUG and otherwise
warns and lazily binds nodestore.get(id) or \x7b\x7d with ref None; the
final branch returns a fresh empty dict (wrapped when configured)
without storing it. -/
def dataGet (f : NodeField) (debug : Bool) (s : Store) (nd : NodeData) :
    Except DErr (Body × NodeData × Bool) :=
  match nd._node_data with
  | some b => .ok (b, nd, true)
  | none =>
    if idTruthy nd.id then
      if debug then .error .unpopulated
      else
        let fetched := (Store.get s (nd.id.getD 0)).getD []
        let bo := bind_data f nd fetched none
        if bo.raised then .error .integrity
        else .ok (bo.nd._node_data.getD ⟨[], false⟩, bo.nd, true)
    else
      .ok (⟨[], f.wrapper⟩, nd, false)

/-- NodeData.__getitem__: read a key from the materialized body; a
KeyError on an absent key is the none result. -/
def getitem (f : NodeField) (debug : Bool) (s : Store) (nd : NodeData) (k : String) :
    Except DErr (Option Val × NodeData) :=
  match dataGet f debug s nd with
  | .error e => .error e
  | .ok (b, nd1, _) => .ok (dlookup k b.entries, nd1)

/-- NodeData.__setitem__: self.data[key] = value.  The mutation reaches
the proxy only when the returned body is the stored one (aliasing);
through the fresh-empty-dict branch it is discarded. -/
def setitem (f : NodeField) (debug : Bool) (s : Store) (nd : NodeData) (k : String) (v : Val) :
    Except DErr NodeData :=
  match dataGet f debug s nd with
  | .error e => .error e
  | .ok (b, nd1, aliased) =>
    let b1 : Body := ⟨dinsert k v b.entries, b.canonical⟩
    .ok (if aliased then { nd1 with _node_data := some b1 } else nd1)

/-- The payload of an unpickled column value: an optional node_id entry
plus the remaining mapping. -/
structure PDict where
  node_id : Option Nat
  rest : Dict
deriving DecidableEq, Repr

/-- Persisted column bytes.  Modelled from the spec: compress and
pickle are black-box reversible transforms, so a string is either a
decodable payload or corrupt bytes. -/
inductive EncStr where
  | good (p : PDict)
  | bad (code : Nat)
deriving DecidableEq, Repr

/-- Modelled from the spec: pickle.loads(decompress(value)); any
failure of the reversal is none, matching the except clause. -/
def decodeBytes : EncStr → Option PDict
  | .good p => some p
  | .bad _ => none

/-- The value handed to NodeField.to_python: None or the empty string,
a non-empty string of bytes, or an already-decoded mapping. -/
inductive PInput where
  | pnull
  | str (s : EncStr)
  | map (m : PDict)
deriving DecidableEq, Repr

/-- NodeField.to_python: decode bytes (degrading to an empty dict on
failure), then split on the presence of node_id: a pointer record
yields an unbound proxy with that id, anything else is an inline body,
wrapped when a wrapper is configured. -/
def to_python (f : NodeField) (v : PInput) : NodeData :=
  let m : PDict :=
    match v with
    | .pnull => ⟨none, []⟩
    | .str s =>
      match decodeBytes s with
      | some p => p
      | none => ⟨none, []⟩
    | .map m => m
  match m.node_id with
  | some nid => ⟨some nid, none, none, none⟩
  | none => ⟨none, none, none, some ⟨m.rest, f.wrapper⟩⟩

/-- Result of NodeField.get_prep_value: the column value (none is SQL
NULL), the proxy and store afterwards, and the traces of nodestore
create and set calls. -/
structure Prep where
  column : Option EncStr
  nd : NodeData
  store : Store
  createCalls : List Dict
  setCalls : List (Nat × Dict)
deriving DecidableEq, Repr

/-- NodeField.get_prep_value.  Evaluating not value takes the length of
the materialized body (a side-effecting access); when it is empty and
the field allows null, persist None.  Otherwise take value.data again,
flatten a canonical body to its plain items, create a fresh node when
the id is falsy or set the existing node otherwise, and persist
compress(pickle.dumps(a dict with the single key node_id)). -/
def get_prep_value (f : NodeField) (debug : Bool) (s : Store) (value : NodeData) :
    Except DErr Prep :=
  match dataGet f debug s value with
  | .error e => .error e
  | .ok (b0, nd1, _) =>
    if b0.entries.isEmpty && f.null then
      .ok ⟨none, nd1, s, [], []⟩
    else
      match dataGet f debug s nd1 with
      | .error e => .error e
      | .ok (b, nd2, _) =>
        let data := b.entries
        if idTruthy nd2.id then
          let nid := nd2.id.getD 0
          .ok ⟨some (EncStr.good ⟨some nid, []⟩), nd2, storeSet s nid data, [], [(nid, data)]⟩
        else
          let nid := freshId s
          .ok ⟨some (EncStr.good ⟨some nid, []⟩), { nd2 with id := some nid },
            storeSet s nid data, [data], []⟩

/-- Result of NodeField.on_delete: the store afterwards and the trace
of nodestore delete calls. -/
structure DelOut where
  store : Store
  deleteCalls : List Nat
deriving DecidableEq, Repr

/-- NodeField.on_delete: silently return when the id is falsy,
otherwise delete the node. -/
def on_delete (nd : NodeData) (s : Store) : DelOut :=
  if idTruthy nd.id then
    let nid := nd.id.getD 0
    ⟨storeDel s nid, [nid]⟩
  else
    ⟨s, []⟩

/-- The pickled state produced by NodeData.__getstate__: the instance
dict with _node_data downgraded to a plain dict and the CANONICAL flag
recording whether it was wrapped. -/
structure PickState where
  id : Option Nat
  ref : Option Val
  ref_version : Option Val
  node_data_CANONICAL : Bool
  node_data : Dict
deriving DecidableEq, Repr

/-- NodeData.__getstate__: dict(self._node_data.items()) requires a
materialized body; on an absent body the source raises (None has no
items), modelled as none. -/
def getstate (nd : NodeData) : Option PickState :=
  match nd._node_data with
  | none => none
  | some b => some ⟨nd.id, nd.ref, nd.ref_version, b.canonical, b.entries⟩

/-- NodeData.__setstate__: restore the instance dict, rewrapping the
body in the canonicalization wrapper when the CANONICAL flag is set. -/
def setstate (st : PickState) : NodeData :=
  ⟨st.id, st.ref, st.ref_version, some ⟨st.node_data, st.node_data_CANONICAL⟩⟩

/-- The persisted column fed back into to_python: SQL NULL arrives as a
falsy value, bytes arrive as a string. -/
def columnToInput : Option EncStr → PInput
  | none => .pnull
  | some e => .str e

/-! Helper lemmas about the dictionary and store operations. -/

theorem dlookup_derase_ne (k k1 : String) (h : k1 ≠ k) (d : Dict) :
    dlookup k (derase k1 d) = dlookup k d := by
  induction d with
  | nil => rfl
  | cons p t ih =>
    obtain ⟨k2, v⟩ := p
    by_cases h2 : k2 = k1
    · subst h2
      have hk : ¬ k2 = k := fun he => h (he ▸ rfl)
      simp [derase, dlookup, hk, ih]
    · simp [derase, dlookup, h2, ih]

theorem derase_absent (k : String) (d : Dict) (h : dlookup k d = none) :
    derase k d = d := by
  induction d with
  | nil => rfl
  | cons p t ih =>
    obtain ⟨k2, v⟩ := p
    by_cases h2 : k2 = k
    · subst h2
      simp [dlookup] at h
    · simp [dlookup, h2] at h
      simp [derase, h2, ih h]

theorem popRef_none (d : Dict) : popRef d none = dlookup "_ref" d := by
  unfold popRef
  cases dlookup "_ref" d <;> rfl

theorem idTruthy_freshId (s : Store) : idTruthy (some (freshId s)) = true := by
  simp [idTruthy, freshId]

theorem get_storeSet (s : Store) (n : Nat) (d : Dict) :
    Store.get (storeSet s n d) n = some d := by
  simp [storeSet, Store.get]

/-! Helper lemmas about bind_data and the data property. -/

theorem bind_data_none_not_raised (f : NodeField) (nd : NodeData) (d : Dict) :
    (bind_data f nd d none).raised = false := by
  unfold bind_data
  have h : ¬ (dlookup "_ref_version" (derase "_ref" d) = f.ref_version ∧
      (none : Option Val).isSome = true ∧ popRef d none ≠ none) := by
    rintro ⟨-, h2, -⟩
    simp [Option.isSome] at h2
  rw [if_neg h]

theorem dataGet_stored (f : NodeField) (debug : Bool) (s : Store) (nd : NodeData)
    (b : Body) (h : nd._node_data = some b) :
    dataGet f debug s nd = .ok (b, nd, true) := by
  unfold dataGet
  rw [h]

theorem dataGet_fresh (f : NodeField) (debug : Bool) (s : Store) (nd : NodeData)
    (hb : nd._node_data = none) (hid : idTruthy nd.id = false) :
    dataGet f debug s nd = .ok (⟨[], f.wrapper⟩, nd, false) := by
  unfold dataGet
  rw [hb, hid]
  rfl

theorem dataGet_lazy (f : NodeField) (s : Store) (nd : NodeData)
    (hb : nd._node_data = none) (hid : idTruthy nd.id = true) :
    dataGet f false s nd =
      .ok (⟨derase "_ref_version" (derase "_ref" ((Store.get s (nd.id.getD 0)).getD [])), f.wrapper⟩,
        { nd with
          ref := dlookup "_ref" ((Store.get s (nd.id.getD 0)).getD []),
          ref_version := dlookup "_ref_version" (derase "_ref" ((Store.get s (nd.id.getD 0)).getD [])),
          _node_data := some ⟨derase "_ref_version" (derase "_ref" ((Store.get s (nd.id.getD 0)).getD [])), f.wrapper⟩ },
        true) := by
  have hcond : ¬ (dlookup "_ref_version" (derase "_ref" ((Store.get s (nd.id.getD 0)).getD [])) =
      f.ref_version ∧ (none : Option Val).isSome = true ∧
      popRef ((Store.get s (nd.id.getD 0)).getD []) none ≠ none) := by
    rintro ⟨-, h2, -⟩
    simp [Option.isSome] at h2
  have hbind : bind_data f nd ((Store.get s (nd.id.getD 0)).getD []) none =
      ⟨false,
        { nd with
          ref := dlookup "_ref" ((Store.get s (nd.id.getD 0)).getD []),
          ref_version := dlookup "_ref_version" (derase "_ref" ((Store.get s (nd.id.getD 0)).getD [])),
          _node_data := some ⟨derase "_ref_version" (derase "_ref" ((Store.get s (nd.id.getD 0)).getD [])), f.wrapper⟩ },
        derase "_ref_version" (derase "_ref" ((Store.get s (nd.id.getD 0)).getD []))⟩ := by
    unfold bind_data
    rw [if_neg hcond, popRef_none]
  unfold dataGet
  rw [hb, hid]
  simp only [if_true, Bool.false_eq_true, if_false, hbind, Option.getD_some]

theorem dataGet_id_eq (f : NodeField) (s : Store) (nd : NodeData) (b : Body)
    (nd1 : NodeData) (al : Bool) (h : dataGet f false s nd = .ok (b, nd1, al)) :
    nd1.id = nd.id := by
  cases hnb : nd._node_data with
  | some b0 =>
    rw [dataGet_stored f false s nd b0 hnb] at h
    simp only [Except.ok.injEq, Prod.mk.injEq] at h
    obtain ⟨-, h2, -⟩ := h
    rw [← h2]
  | none =>
    cases hid : idTruthy nd.id with
    | false =>
      rw [dataGet_fresh f false s nd hnb hid] at h
      simp only [Except.ok.injEq, Prod.mk.injEq] at h
      obtain ⟨-, h2, -⟩ := h
      rw [← h2]
    | true =>
      rw [dataGet_lazy f s nd hnb hid] at h
      simp only [Except.ok.injEq, Prod.mk.injEq] at h
      obtain ⟨-, h2, -⟩ := h
      rw [← h2]

theorem dataGet_again (f : NodeField) (s s2 : Store) (nd : NodeData) (b : Body)
    (nd1 : NodeData) (al : Bool) (h : dataGet f false s nd = .ok (b, nd1, al)) :
    dataGet f false s2 nd1 = .ok (b, nd1, al) := by
  cases hnb : nd._node_data with
  | some b0 =>
    rw [dataGet_stored f false s nd b0 hnb] at h
    simp only [Except.ok.injEq, Prod.mk.injEq] at h
    obtain ⟨h1, h2, h3⟩ := h
    rw [← h1, ← h2, ← h3]
    exact dataGet_stored f false s2 nd b0 hnb
  | none =>
    cases hid : idTruthy nd.id with
    | false =>
      rw [dataGet_fresh f false s nd hnb hid] at h
      simp only [Except.ok.injEq, Prod.mk.injEq] at h
      obtain ⟨h1, h2, h3⟩ := h
      rw [← h1, ← h2, ← h3]
      exact dataGet_fresh f false s2 nd hnb hid
    | true =>
      rw [dataGet_lazy f s nd hnb hid] at h
      simp only [Except.ok.injEq, Prod.mk.injEq] at h
      obtain ⟨h1, h2, h3⟩ := h
      rw [← h1, ← h2, ← h3]
      exact dataGet_stored f false s2 _ _ rfl

theorem dataGet_total (f : NodeField) (s : Store) (nd : NodeData) :
    ∃ b nd1 al, dataGet f false s nd = .ok (b, nd1, al) := by
  cases hnb : nd._node_data with
  | some b0 => exact ⟨b0, nd, true, dataGet_stored f false s nd b0 hnb⟩
  | none =>
    cases hid : idTruthy nd.id with
    | false => exact ⟨_, _, _, dataGet_fresh f false s nd hnb hid⟩
    | true => exact ⟨_, _, _, dataGet_lazy f s nd hnb hid⟩

theorem dataGet_falsy_fix (f : NodeField) (s : Store) (nd : NodeData) (b : Body)
    (nd1 : NodeData) (al : Bool) (hid : idTruthy nd.id = false)
    (h : dataGet f false s nd = .ok (b, nd1, al)) : nd1 = nd := by
  cases hnb : nd._node_data with
  | some b0 =>
    rw [dataGet_stored f false s nd b0 hnb] at h
    simp only [Except.ok.injEq, Prod.mk.injEq] at h
    exact h.2.1.symm
  | none =>
    rw [dataGet_fresh f false s nd hnb hid] at h
    simp only [Except.ok.injEq, Prod.mk.injEq] at h
    exact h.2.1.symm

theorem gpv_truthy_no_create (f : NodeField) (s : Store) (nd : NodeData) (p : Prep)
    (hid : idTruthy nd.id = true) (hp : get_prep_value f false s nd = .ok p) :
    p.createCalls = [] ∧ p.nd.id = nd.id ∧
      (p.column ≠ none → ∃ d2, p.setCalls = [(nd.id.getD 0, d2)]) := by
  unfold get_prep_value at hp
  obtain ⟨b0, nd1, al0, hd0⟩ := dataGet_total f s nd
  rw [hd0] at hp
  dsimp only at hp
  by_cases hnull : (b0.entries.isEmpty && f.null) = true
  · rw [if_pos hnull] at hp
    simp only [Except.ok.injEq] at hp
    rw [← hp]
    refine ⟨rfl, dataGet_id_eq f s nd b0 nd1 al0 hd0, ?_⟩
    intro hc
    exact absurd rfl hc
  · rw [if_neg hnull] at hp
    have hd1 := dataGet_again f s s nd b0 nd1 al0 hd0
    rw [hd1] at hp
    dsimp only at hp
    have hid1 : idTruthy nd1.id = true := by
      rw [dataGet_id_eq f s nd b0 nd1 al0 hd0]
      exact hid
    rw [if_pos hid1] at hp
    simp only [Except.ok.injEq] at hp
    rw [← hp]
    refine ⟨rfl, dataGet_id_eq f s nd b0 nd1 al0 hd0, ?_⟩
    intro _
    exact ⟨b0.entries, by rw [dataGet_id_eq f s nd b0 nd1 al0 hd0]⟩

theorem bind_data_raised_iff (f : NodeField) (nd : NodeData) (d : Dict) (E : Option Val) :
    (bind_data f nd d E).raised = true ↔
      (dlookup "_ref_version" (derase "_ref" d) = f.ref_version ∧
        E.isSome = true ∧ popRef d E ≠ E) := by
  unfold bind_data
  dsimp only
  split
  · rename_i hc
    exact iff_of_true rfl hc
  · rename_i hc
    exact iff_of_false (by simp) hc

theorem bind_data_eq_of_raised (f : NodeField) (nd : NodeData) (d : Dict) (E : Option Val)
    (h : (bind_data f nd d E).raised = true) :
    bind_data f nd d E =
      ⟨true,
        { nd with
          ref := popRef d E,
          ref_version := dlookup "_ref_version" (derase "_ref" d) },
        derase "_ref_version" (derase "_ref" d)⟩ := by
  unfold bind_data at h ⊢
  dsimp only at h ⊢
  split at h
  · rename_i hc
    rw [if_pos hc]
  · simp at h

/-- C2: bind_data raises NodeIntegrityFailure exactly when the stored
_ref_version of the body equals the field's configured ref_version, the
expected reference E is non-null, and the stored _ref (or E itself when
the body carries none) differs from E; consequently binding a body
whose _ref_version differs from the field epoch never raises. -/
theorem c2_integrity_iff (f : NodeField) (nd : NodeData) (d : Dict) (E : Option Val) :
    ((bind_data f nd d E).raised = true ↔
      (dlookup "_ref_version" d = f.ref_version ∧ E.isSome = true ∧ popRef d E ≠ E)) ∧
    (dlookup "_ref_version" d ≠ f.ref_version → (bind_data f nd d E).raised = false) := by
  have hne : ("_ref" : String) ≠ "_ref_version" := by decide
  have hlk : dlookup "_ref_version" (derase "_ref" d) = dlookup "_ref_version" d :=
    dlookup_derase_ne "_ref_version" "_ref" hne d
  have hiff := bind_data_raised_iff f nd d E
  rw [hlk] at hiff
  refine ⟨hiff, ?_⟩
  intro hv
  cases hr : (bind_data f nd d E).raised with
  | false => rfl
  | true => exact absurd (hiff.mp hr).1 hv

/-- C2 witness: with field epoch 1 and a body carrying a mismatching
_ref but no _ref_version, the bind does not raise (epoch bypass). -/
theorem c2_integrity_iff_witness :
    (bind_data ⟨some (Val.vNat 1), false, false⟩ ⟨none, none, none, none⟩
      [("_ref", Val.vStr "a")] (some (Val.vStr "b"))).raised = false :=
  (c2_integrity_iff ⟨some (Val.vNat 1), false, false⟩ ⟨none, none, none, none⟩
    [("_ref", Val.vStr "a")] (some (Val.vStr "b"))).2 (by decide)

/-- C7 counterexample: a bind that raises NodeIntegrityFailure has
already overwritten the recorded ref (None before, the popped token
after) and has already popped the reserved keys out of the caller's
dict, so the observable state is not the same as before the call. -/
theorem c7_counterexample :
    (bind_data ⟨some (Val.vNat 1), false, false⟩ ⟨none, none, none, none⟩
        [("_ref", Val.vStr "a"), ("_ref_version", Val.vNat 1)] (some (Val.vStr "b"))).raised = true ∧
    (bind_data ⟨some (Val.vNat 1), false, false⟩ ⟨none, none, none, none⟩
        [("_ref", Val.vStr "a"), ("_ref_version", Val.vNat 1)] (some (Val.vStr "b"))).nd.ref ≠
      (⟨none, none, none, none⟩ : NodeData).ref ∧
    (bind_data ⟨some (Val.vNat 1), false, false⟩ ⟨none, none, none, none⟩
        [("_ref", Val.vStr "a"), ("_ref_version", Val.vNat 1)] (some (Val.vStr "b"))).leftover ≠
      [("_ref", Val.vStr "a"), ("_ref_version", Val.vNat 1)] := by
  refine ⟨rfl, by decide, by decide⟩

/-- C7 amended: when bind_data raises NodeIntegrityFailure the
materialized body and the id are left unchanged (the proxy stays
unbound), but the recorded ref and ref_version have already been
overwritten with the popped values and the caller's dict has already
lost its reserved keys. -/
theorem c7_bind_failure_amended (f : NodeField) (nd : NodeData) (d : Dict) (E : Option Val)
    (h : (bind_data f nd d E).raised = true) :
    (bind_data f nd d E).nd._node_data = nd._node_data ∧
    (bind_data f nd d E).nd.id = nd.id ∧
    (bind_data f nd d E).nd.ref = popRef d E ∧
    (bind_data f nd d E).nd.ref_version = dlookup "_ref_version" (derase "_ref" d) ∧
    (bind_data f nd d E).leftover = derase "_ref_version" (derase "_ref" d) := by
  rw [bind_data_eq_of_raised f nd d E h]
  exact ⟨rfl, rfl, rfl, rfl, rfl⟩

/-- C7 amended witness at a concrete raising bind. -/
theorem c7_bind_failure_amended_witness :
    (bind_data ⟨some (Val.vNat 2), false, false⟩ ⟨some 9, none, none, none⟩
        [("_ref", Val.vStr "p"), ("_ref_version", Val.vNat 2)] (some (Val.vStr "q"))).nd._node_data =
      (⟨some 9, none, none, none⟩ : NodeData)._node_data ∧
    (bind_data ⟨some (Val.vNat 2), false, false⟩ ⟨some 9, none, none, none⟩
        [("_ref", Val.vStr "p"), ("_ref_version", Val.vNat 2)] (some (Val.vStr "q"))).nd.id =
      (⟨some 9, none, none, none⟩ : NodeData).id ∧
    (bind_data ⟨some (Val.vNat 2), false, false⟩ ⟨some 9, none, none, none⟩
        [("_ref", Val.vStr "p"), ("_ref_version", Val.vNat 2)] (some (Val.vStr "q"))).nd.ref =
      popRef [("_ref", Val.vStr "p"), ("_ref_version", Val.vNat 2)] (some (Val.vStr "q")) ∧
    (bind_data ⟨some (Val.vNat 2), false, false⟩ ⟨some 9, none, none, none⟩
        [("_ref", Val.vStr "p"), ("_ref_version", Val.vNat 2)] (some (Val.vStr "q"))).nd.ref_version =
      dlookup "_ref_version" (derase "_ref" [("_ref", Val.vStr "p"), ("_ref_version", Val.vNat 2)]) ∧
    (bind_data ⟨some (Val.vNat 2), false, false⟩ ⟨some 9, none, none, none⟩
        [("_ref", Val.vStr "p"), ("_ref_version", Val.vNat 2)] (some (Val.vStr "q"))).leftover =
      derase "_ref_version" (derase "_ref" [("_ref", Val.vStr "p"), ("_ref_version", Val.vNat 2)]) :=
  c7_bind_failure_amended ⟨some (Val.vNat 2), false, false⟩ ⟨some 9, none, none, none⟩
    [("_ref", Val.vStr "p"), ("_ref_version", Val.vNat 2)] (some (Val.vStr "q")) rfl

/-- C6 counterexample: a proxy with pointer 1 whose stored body carries
_ref_version equal to the field epoch and a _ref token r1 that differs
from every non-null expected reference; the first lazy access succeeds
(binding the body and recording the token) instead of raising
NodeIntegrityFailure. -/
theorem c6_counterexample :
    dataGet ⟨some (Val.vNat 1), false, false⟩ false
        [(1, [("_ref_version", Val.vNat 1), ("_ref", Val.vStr "r1")])]
        ⟨some 1, none, none, none⟩ =
      .ok (⟨[], false⟩, ⟨some 1, some (Val.vStr "r1"), some (Val.vNat 1), some ⟨[], false⟩⟩, true) ∧
    some (Val.vStr "r1") ≠ some (Val.vStr "r2") := by
  refine ⟨rfl, by decide⟩

/-- C6 amended: lazy materialization binds the fetched body with
expected reference None, so the integrity condition (which requires a
non-null expected reference) never holds: the first access never raises
NodeIntegrityFailure; the reserved keys are still stripped from the
fetched body and recorded on the proxy. -/
theorem c6_lazy_bind_amended (f : NodeField) (s : Store) (nd : NodeData)
    (hb : nd._node_data = none) (hid : idTruthy nd.id = true) :
    (bind_data f nd ((Store.get s (nd.id.getD 0)).getD []) none).raised = false ∧
    dataGet f false s nd =
      .ok (⟨derase "_ref_version" (derase "_ref" ((Store.get s (nd.id.getD 0)).getD [])), f.wrapper⟩,
        { nd with
          ref := dlookup "_ref" ((Store.get s (nd.id.getD 0)).getD []),
          ref_version := dlookup "_ref_version" (derase "_ref" ((Store.get s (nd.id.getD 0)).getD [])),
          _node_data := some ⟨derase "_ref_version" (derase "_ref" ((Store.get s (nd.id.getD 0)).getD [])), f.wrapper⟩ },
        true) :=
  ⟨bind_data_none_not_raised f nd _, dataGet_lazy f s nd hb hid⟩

/-- C6 amended witness at a concrete proxy with a pointer and an empty
store. -/
theorem c6_lazy_bind_amended_witness :
    (bind_data ⟨none, false, false⟩ ⟨some 1, none, none, none⟩ [] none).raised = false ∧
    dataGet ⟨none, false, false⟩ false [] ⟨some 1, none, none, none⟩ =
      .ok (⟨[], false⟩, ⟨some 1, none, none, some ⟨[], false⟩⟩, true) :=
  c6_lazy_bind_amended ⟨none, false, false⟩ [] ⟨some 1, none, none, none⟩ rfl rfl

/-- C3 counterexample: on a proxy with no pointer and no body, a write
through the mapping interface mutates a fresh empty dict that is then
discarded, so a subsequent read of the same key finds nothing (a
KeyError, modelled as none) instead of the written value. -/
theorem c3_counterexample :
    setitem ⟨none, false, false⟩ false [] ⟨none, none, none, none⟩ "k" (Val.vStr "x") =
      .ok ⟨none, none, none, none⟩ ∧
    getitem ⟨none, false, false⟩ false [] ⟨none, none, none, none⟩ "k" =
      .ok (none, ⟨none, none, none, none⟩) ∧
    (Except.ok (none, (⟨none, none, none, none⟩ : NodeData)) :
        Except DErr (Option Val × NodeData)) ≠
      .ok (some (Val.vStr "x"), ⟨none, none, none, none⟩) := by
  refine ⟨rfl, rfl, by simp⟩

/-- C3 amended: an access that finds a stored body returns it without
touching the store or the proxy; the first access on a proxy with a
pointer and no body stores the fetched body, and every later access
returns that stored body even against a different store state; but on a
proxy with no pointer and no body no materialized body is ever stored:
the produced empty document is fresh on every access, so a write
followed by a read of the same key yields none rather than the value. -/
theorem c3_memoization_amended (f : NodeField) (s s2 : Store) (nd : NodeData) (b : Body)
    (k : String) (v : Val) :
    (nd._node_data = some b → dataGet f false s nd = .ok (b, nd, true)) ∧
    (nd._node_data = none → idTruthy nd.id = true →
      ∃ b1 nd1, dataGet f false s nd = .ok (b1, nd1, true) ∧
        nd1._node_data = some b1 ∧
        dataGet f false s2 nd1 = .ok (b1, nd1, true)) ∧
    (nd._node_data = none → idTruthy nd.id = false →
      setitem f false s nd k v = .ok nd ∧
      getitem f false s nd k = .ok (none, nd)) := by
  refine ⟨fun h => dataGet_stored f false s nd b h, ?_, ?_⟩
  · intro hb hid
    refine ⟨_, _, dataGet_lazy f s nd hb hid, rfl, ?_⟩
    exact dataGet_again f s s2 nd _ _ _ (dataGet_lazy f s nd hb hid)
  · intro hb hid
    constructor
    · unfold setitem
      rw [dataGet_fresh f false s nd hb hid]
      rfl
    · unfold getitem
      rw [dataGet_fresh f false s nd hb hid]
      rfl

/-- C3 amended witness: reading a proxy whose body is already
materialized returns that body unchanged. -/
theorem c3_memoization_amended_witness :
    dataGet ⟨none, false, false⟩ false [] ⟨none, none, none, some ⟨[("a", Val.vNat 2)], false⟩⟩ =
      .ok (⟨[("a", Val.vNat 2)], false⟩, ⟨none, none, none, some ⟨[("a", Val.vNat 2)], false⟩⟩, true) :=
  (c3_memoization_amended ⟨none, false, false⟩ [] [] ⟨none, none, none, some ⟨[("a", Val.vNat 2)], false⟩⟩
    ⟨[("a", Val.vNat 2)], false⟩ "a" (Val.vNat 0)).1 rfl

/-- C4 counterexample: with allow-null enabled, a proxy that has a
pointer but an empty materialized body is persisted as a true null (no
store write, no pointer record), contradicting the claim that a
pointer-bearing proxy is always written through to the store. -/
theorem c4_counterexample :
    get_prep_value ⟨none, false, true⟩ false [] ⟨some 1, none, none, some ⟨[], false⟩⟩ =
      .ok ⟨none, ⟨some 1, none, none, some ⟨[], false⟩⟩, [], [], []⟩ ∧
    idTruthy (⟨some 1, none, none, some ⟨[], false⟩⟩ : NodeData).id = true := by
  exact ⟨rfl, rfl⟩

/-- C4 amended: get_prep_value persists the null sentinel exactly when
the field's allow-null option is enabled and the materialized body is
empty, regardless of whether the proxy has a pointer; in every other
case it persists a pointer record. -/
theorem c4_null_iff_amended (f : NodeField) (s : Store) (nd : NodeData) (p : Prep)
    (b : Body) (nd1 : NodeData) (al : Bool)
    (hp : get_prep_value f false s nd = .ok p)
    (hd : dataGet f false s nd = .ok (b, nd1, al)) :
    p.column = none ↔ (f.null = true ∧ b.entries = []) := by
  unfold get_prep_value at hp
  rw [hd] at hp
  dsimp only at hp
  by_cases hnull : (b.entries.isEmpty && f.null) = true
  · rw [if_pos hnull] at hp
    simp only [Except.ok.injEq] at hp
    rw [← hp]
    simp only [Bool.and_eq_true, List.isEmpty_iff] at hnull
    exact iff_of_true rfl ⟨hnull.2, hnull.1⟩
  · rw [if_neg hnull] at hp
    have hd1 := dataGet_again f s s nd b nd1 al hd
    rw [hd1] at hp
    dsimp only at hp
    simp only [Bool.and_eq_true, List.isEmpty_iff] at hnull
    have hrhs : ¬ (f.null = true ∧ b.entries = []) := fun hc => hnull ⟨hc.2, hc.1⟩
    by_cases hid : idTruthy nd1.id = true
    · rw [if_pos hid] at hp
      simp only [Except.ok.injEq] at hp
      rw [← hp]
      exact iff_of_false (by simp) hrhs
    · rw [if_neg hid] at hp
      simp only [Except.ok.injEq] at hp
      rw [← hp]
      exact iff_of_false (by simp) hrhs

/-- C4 amended witness: a fresh empty proxy under an allow-null field
persists null. -/
theorem c4_null_iff_amended_witness :
    (⟨none, ⟨none, none, none, none⟩, [], [], []⟩ : Prep).column = none ↔
      ((⟨none, false, true⟩ : NodeField).null = true ∧ (⟨[], false⟩ : Body).entries = []) :=
  c4_null_iff_amended ⟨none, false, true⟩ [] ⟨none, none, none, none⟩
    ⟨none, ⟨none, none, none, none⟩, [], [], []⟩ ⟨[], false⟩ ⟨none, none, none, none⟩ false
    rfl rfl

/-- C5: a save of a proxy with a falsy id that is not persisted as null
calls nodestore.create exactly once with the materialized body, records
the freshly created (truthy) pointer on the proxy and calls set not at
all; every later save of the resulting proxy never calls create again
and, when not persisted as null, calls set exactly once with that same
pointer. -/
theorem c5_create_then_set (f : NodeField) (s : Store) (nd : NodeData) (p : Prep)
    (b : Body) (nd1 : NodeData) (al : Bool)
    (hid : idTruthy nd.id = false)
    (hd : dataGet f false s nd = .ok (b, nd1, al))
    (hp : get_prep_value f false s nd = .ok p)
    (hnn : p.column ≠ none) :
    p.createCalls = [b.entries] ∧
    p.setCalls = [] ∧
    p.nd.id = some (freshId s) ∧
    idTruthy p.nd.id = true ∧
    (∀ s2 p2, get_prep_value f false s2 p.nd = .ok p2 →
      p2.createCalls = [] ∧ (p2.column ≠ none → ∃ d2, p2.setCalls = [(freshId s, d2)])) := by
  have hnd1 : nd1 = nd := dataGet_falsy_fix f s nd b nd1 al hid hd
  subst hnd1
  unfold get_prep_value at hp
  rw [hd] at hp
  dsimp only at hp
  by_cases hnull : (b.entries.isEmpty && f.null) = true
  · rw [if_pos hnull] at hp
    simp only [Except.ok.injEq] at hp
    rw [← hp] at hnn
    exact absurd rfl hnn
  · rw [if_neg hnull] at hp
    rw [hd] at hp
    dsimp only at hp
    rw [hid] at hp
    simp only [Bool.false_eq_true, if_false] at hp
    simp only [Except.ok.injEq] at hp
    rw [← hp]
    refine ⟨rfl, rfl, rfl, idTruthy_freshId s, ?_⟩
    intro s2 p2 hp2
    obtain ⟨h1, -, h3⟩ :=
      gpv_truthy_no_create f s2 _ p2 (idTruthy_freshId s) hp2
    exact ⟨h1, h3⟩

/-- C5 witness at a proxy with a bound one-key body and a falsy id. -/
theorem c5_create_then_set_witness :
    (⟨some (EncStr.good ⟨some 1, []⟩),
        ⟨some 1, none, none, some ⟨[("k", Val.vStr "v")], false⟩⟩,
        [(1, [("k", Val.vStr "v")])], [[("k", Val.vStr "v")]], []⟩ : Prep).createCalls =
      [(⟨[("k", Val.vStr "v")], false⟩ : Body).entries] :=
  (c5_create_then_set ⟨none, false, false⟩ [] ⟨none, none, none, some ⟨[("k", Val.vStr "v")], false⟩⟩
    ⟨some (EncStr.good ⟨some 1, []⟩),
      ⟨some 1, none, none, some ⟨[("k", Val.vStr "v")], false⟩⟩,
      [(1, [("k", Val.vStr "v")])], [[("k", Val.vStr "v")]], []⟩
    ⟨[("k", Val.vStr "v")], false⟩ ⟨none, none, none, some ⟨[("k", Val.vStr "v")], false⟩⟩ true
    rfl rfl rfl (fun h => Option.noConfusion h)).1

/-- C8: decoding a non-empty string whose decompression or
deserialization fails yields a proxy with no pointer, no recorded
reference and an already-materialized empty body, so any access
materializes to the empty document and any key reads as absent; the
decode itself is total by construction (the except clause in the source
catches every reversal failure). -/
theorem c8_corrupt_tolerance (f : NodeField) (c : Nat) (s : Store) (k : String) :
    to_python f (PInput.str (EncStr.bad c)) = ⟨none, none, none, some ⟨[], f.wrapper⟩⟩ ∧
    dataGet f false s (to_python f (PInput.str (EncStr.bad c))) =
      .ok (⟨[], f.wrapper⟩, ⟨none, none, none, some ⟨[], f.wrapper⟩⟩, true) ∧
    getitem f false s (to_python f (PInput.str (EncStr.bad c))) k =
      .ok (none, ⟨none, none, none, some ⟨[], f.wrapper⟩⟩) := by
  exact ⟨rfl, rfl, rfl⟩

/-- C9: on_delete calls nodestore.delete exactly once with the pointer
when the proxy's id is truthy, and makes no store call (leaving the
store untouched) when the id is falsy. -/
theorem c9_delete_propagation (nd : NodeData) (s : Store) :
    (on_delete nd s).deleteCalls =
      (match nd.id with
       | some (Nat.succ m) => [Nat.succ m]
       | _ => []) ∧
    (on_delete nd s).store =
      (match nd.id with
       | some (Nat.succ m) => storeDel s (Nat.succ m)
       | _ => s) := by
  obtain ⟨i, r, rv, bo⟩ := nd
  cases i with
  | none => exact ⟨rfl, rfl⟩
  | some n =>
    cases n with
    | zero => exact ⟨rfl, rfl⟩
    | succ m => exact ⟨rfl, rfl⟩

/-- C10: for a proxy with a materialized body, __getstate__ downgrades
the body to its plain entries with the CANONICAL flag recording whether
it was wrapped, and __setstate__ restores an identical proxy (same id,
ref, ref_version and body); for a proxy with no materialized body
__getstate__ fails (None has no items), so unbound proxies are not
picklable. -/
theorem c10_pickle_roundtrip (nd : NodeData) :
    (∀ b, nd._node_data = some b →
      getstate nd = some ⟨nd.id, nd.ref, nd.ref_version, b.canonical, b.entries⟩ ∧
      setstate ⟨nd.id, nd.ref, nd.ref_version, b.canonical, b.entries⟩ = nd) ∧
    (nd._node_data = none → getstate nd = none) := by
  obtain ⟨i, r, rv, bo⟩ := nd
  constructor
  · intro b hb
    dsimp only at hb
    subst hb
    refine ⟨rfl, ?_⟩
    cases b
    rfl
  · intro hb
    dsimp only at hb
    subst hb
    rfl

/-- C10 witness at a canonical-bodied proxy. -/
theorem c10_pickle_roundtrip_witness :
    getstate ⟨some 5, some (Val.vStr "r"), some (Val.vNat 1), some ⟨[("a", Val.vNat 7)], true⟩⟩ =
      some ⟨some 5, some (Val.vStr "r"), some (Val.vNat 1), true, [("a", Val.vNat 7)]⟩ ∧
    setstate ⟨some 5, some (Val.vStr "r"), some (Val.vNat 1), true, [("a", Val.vNat 7)]⟩ =
      ⟨some 5, some (Val.vStr "r"), some (Val.vNat 1), some ⟨[("a", Val.vNat 7)], true⟩⟩ :=
  (c10_pickle_roundtrip ⟨some 5, some (Val.vStr "r"), some (Val.vNat 1),
    some ⟨[("a", Val.vNat 7)], true⟩⟩).1 ⟨[("a", Val.vNat 7)], true⟩ rfl

theorem bind_data_none_eq (f : NodeField) (nd : NodeData) (d : Dict) :
    bind_data f nd d none =
      ⟨false,
        { nd with
          ref := dlookup "_ref" d,
          ref_version := dlookup "_ref_version" (derase "_ref" d),
          _node_data := some ⟨derase "_ref_version" (derase "_ref" d), f.wrapper⟩ },
        derase "_ref_version" (derase "_ref" d)⟩ := by
  have hcond : ¬ (dlookup "_ref_version" (derase "_ref" d) = f.ref_version ∧
      (none : Option Val).isSome = true ∧ popRef d none ≠ none) := by
    rintro ⟨-, hx, -⟩
    simp [Option.isSome] at hx
  unfold bind_data
  rw [if_neg hcond, popRef_none]

/-- C1: binding a body D with no reserved keys to a fresh proxy never
raises; saving that proxy through get_prep_value and then decoding the
persisted column with to_python yields a proxy whose materialized body
agrees with D on every key, whether the save took the pointer path or
the allow-null shortcut (which only triggers when D itself is empty). -/
theorem c1_roundtrip (f : NodeField) (s : Store) (D : Dict) (k : String)
    (h1 : dlookup "_ref" D = none) (h2 : dlookup "_ref_version" D = none) :
    (bind_data f ⟨none, none, none, none⟩ D none).raised = false ∧
    ∃ p b1 nd2 al,
      get_prep_value f false s (bind_data f ⟨none, none, none, none⟩ D none).nd = .ok p ∧
      dataGet f false p.store (to_python f (columnToInput p.column)) = .ok (b1, nd2, al) ∧
      dlookup k b1.entries = dlookup k D := by
  have hne : ("_ref" : String) ≠ "_ref_version" := by decide
  have hD : derase "_ref_version" (derase "_ref" D) = D := by
    rw [derase_absent "_ref" D h1, derase_absent "_ref_version" D h2]
  have hbind : bind_data f ⟨none, none, none, none⟩ D none =
      ⟨false, ⟨none, none, none, some ⟨D, f.wrapper⟩⟩, D⟩ := by
    rw [bind_data_none_eq f ⟨none, none, none, none⟩ D, hD,
      dlookup_derase_ne "_ref_version" "_ref" hne D, h1, h2]
  rw [hbind]
  refine ⟨rfl, ?_⟩
  by_cases hnull : (D.isEmpty && f.null) = true
  · refine ⟨⟨none, ⟨none, none, none, some ⟨D, f.wrapper⟩⟩, s, [], []⟩, ⟨[], f.wrapper⟩,
      ⟨none, none, none, some ⟨[], f.wrapper⟩⟩, true, ?_, ?_, ?_⟩
    · unfold get_prep_value
      rw [dataGet_stored f false s ⟨none, none, none, some ⟨D, f.wrapper⟩⟩ ⟨D, f.wrapper⟩ rfl]
      dsimp only
      rw [if_pos hnull]
    · rfl
    · have hDnil : D = [] := by
        simp only [Bool.and_eq_true, List.isEmpty_iff] at hnull
        exact hnull.1
      rw [hDnil]
  · refine ⟨⟨some (EncStr.good ⟨some (freshId s), []⟩),
        ⟨some (freshId s), none, none, some ⟨D, f.wrapper⟩⟩, storeSet s (freshId s) D, [D], []⟩,
      ⟨D, f.wrapper⟩,
      ⟨some (freshId s), none, none, some ⟨D, f.wrapper⟩⟩, true, ?_, ?_, ?_⟩
    · unfold get_prep_value
      rw [dataGet_stored f false s ⟨none, none, none, some ⟨D, f.wrapper⟩⟩ ⟨D, f.wrapper⟩ rfl]
      dsimp only
      rw [if_neg hnull]
      rw [dataGet_stored f false s ⟨none, none, none, some ⟨D, f.wrapper⟩⟩ ⟨D, f.wrapper⟩ rfl]
      dsimp only
      rw [if_neg (by simp [idTruthy])]
    · show dataGet f false (storeSet s (freshId s) D) ⟨some (freshId s), none, none, none⟩ =
        .ok (⟨D, f.wrapper⟩, ⟨some (freshId s), none, none, some ⟨D, f.wrapper⟩⟩, true)
      have hlz := dataGet_lazy f (storeSet s (freshId s) D)
        ⟨some (freshId s), none, none, none⟩ rfl (idTruthy_freshId s)
      simp only [Option.getD_some, get_storeSet, hD, h1,
        dlookup_derase_ne "_ref_version" "_ref" hne D, h2] at hlz
      exact hlz
    · rfl

/-- C1 witness at a one-key body with a pointer-path save. -/
theorem c1_roundtrip_witness :
    (bind_data ⟨none, false, false⟩ ⟨none, none, none, none⟩ [("k", Val.vStr "v")] none).raised = false ∧
    ∃ p b1 nd2 al,
      get_prep_value ⟨none, false, false⟩ false []
          (bind_data ⟨none, false, false⟩ ⟨none, none, none, none⟩ [("k", Val.vStr "v")] none).nd = .ok p ∧
      dataGet ⟨none, false, false⟩ false p.store
          (to_python ⟨none, false, false⟩ (columnToInput p.column)) = .ok (b1, nd2, al) ∧
      dlookup "k" b1.entries = dlookup "k" [("k", Val.vStr "v")] :=
  c1_roundtrip ⟨none, false, false⟩ [] [("k", Val.vStr "v")] "k" (by decide) (by decide)
